import Mathlib

/-!
Shallow embedding of the chat-langchain frontend conversation core:
the timeline reconstruction performed by `switchSelectedThread`, and the
submission flow `streamMessage`, as found in the GraphProvider module,
together with the helpers of `app/contexts/utils.ts`.
-/

namespace ChatLangChain

/-- Raw message entry of a stored thread snapshot: the duck-typed
`\x7b type, id?, content \x7d` record read from `threadValues.messages`. -/
structure RawMsg where
  type : String
  id : Option String
  content : String
deriving DecidableEq, Repr

/-- Message identifier: either assigned by the server (carried through the
spread `...msg`) or generated client-side by `uuidv4()`, modelled as a
counter value so that freshness is explicit. -/
inductive MsgId where
  | server (s : String)
  | client (n : Nat)
deriving DecidableEq, Repr

/-- Metadata of a retrieved document (`document.metadata`). -/
structure DocMetadata where
  source : String
deriving DecidableEq, Repr

/-- A retrieved document as stored in `threadValues.documents`. -/
structure Doc where
  metadata : DocMetadata
deriving DecidableEq, Repr

/-- The router decision object stored in `threadValues.router`. -/
structure Router where
  decision : String
deriving DecidableEq, Repr

/-- Stored thread snapshot value bag
`\x7b messages: raw[], router?: object, documents?: object[] \x7d`;
`none` models an absent (or null, hence falsy) field. -/
structure ThreadValues where
  messages : List RawMsg
  router : Option Router
  documents : Option (List Doc)
deriving DecidableEq, Repr

/-- A thread as handed to `switchSelectedThread`: its identifier and the
optional stored value bag. -/
structure Thread where
  thread_id : String
  values : Option ThreadValues
deriving DecidableEq, Repr

/-- Tool calls attached to synthetic AI marker messages. -/
inductive ToolCall where
  | progress (step : Nat)
  | router_logic (args : Router)
  | selected_documents (documents : List Doc)
  | answer_header
deriving DecidableEq, Repr

/-- Parsed JSON body returned by the `/chat` endpoint: an optional string
field `answer`, plus an uninterpreted remainder identifying the whole body. -/
structure ChatResponse where
  answer : Option String
  rest : String
deriving DecidableEq, Repr

/-- Content of a timeline message: a string, or (through the defensive
`response.answer || response` fallback) an entire response body. -/
inductive MsgContent where
  | str (s : String)
  | jsonBody (r : ChatResponse)
deriving DecidableEq, Repr

/-- An entry of the conversation timeline held in the `messages` state:
a `HumanMessage` or an `AIMessage` (whose `tool_calls` list is non-empty
exactly for the synthetic marker messages). -/
inductive OutMsg where
  | human (id : Option MsgId) (content : MsgContent)
  | ai (id : Option MsgId) (content : MsgContent) (tool_calls : List ToolCall)
deriving DecidableEq, Repr

/-- From `app/contexts/utils.ts`: maps a graph node name to its progress
step index; `respond` is the last pipeline node. -/
def nodeToStep (node : String) : Nat :=
  if node = "analyze_and_route_query" then 0
  else if node = "create_research_plan" then 1
  else if node = "conduct_research" then 2
  else if node = "respond" then 3
  else 0

/-- The terminality test of the flatMap callback:
`index === array.length - 1 || array[index + 1].type === "human"`,
phrased on the suffix after the current entry. -/
def isLastAiMessage : List RawMsg → Bool
  | [] => true
  | next :: _ => decide (next.type = "human")

/-- The `routerMessage` ternary: a router marker when `threadValues.router`
is truthy, consuming one fresh client id. -/
def routerMsgs (tv : ThreadValues) (c : Nat) : List OutMsg × Nat :=
  match tv.router with
  | some r =>
      ([OutMsg.ai (some (MsgId.client c)) (MsgContent.str "") [ToolCall.router_logic r]], c + 1)
  | none => ([], c)

/-- The `selectedDocumentsAIMessage` ternary: a selected-documents marker
when `threadValues.documents?.length` is truthy. -/
def docsMsgs (tv : ThreadValues) (c : Nat) : List OutMsg × Nat :=
  match tv.documents with
  | some docs =>
      if docs.length ≠ 0 then
        ([OutMsg.ai (some (MsgId.client c)) (MsgContent.str "")
            [ToolCall.selected_documents docs]], c + 1)
      else ([], c)
  | none => ([], c)

/-- The `answerHeaderToolMsg` constant: built with no `id` field. -/
def answerHeaderToolMsg : OutMsg :=
  OutMsg.ai none (MsgContent.str "") [ToolCall.answer_header]

/-- One step of the flatMap callback of `switchSelectedThread`: the entries
emitted for `msg` given the suffix `rest` of the raw array after it, with
the `uuidv4()` generator modelled as the counter `c`. -/
def emitOne (tv : ThreadValues) (msg : RawMsg) (rest : List RawMsg) (c : Nat) :
    List OutMsg × Nat :=
  if msg.type = "human" then
    ([OutMsg.human (msg.id.map MsgId.server) (MsgContent.str msg.content),
      OutMsg.ai (some (MsgId.client c)) (MsgContent.str "") [ToolCall.progress 4]], c + 1)
  else if msg.type = "ai" then
    if isLastAiMessage rest then
      let rm := routerMsgs tv c
      let dm := docsMsgs tv rm.2
      (rm.1 ++ dm.1 ++
        [answerHeaderToolMsg,
         OutMsg.ai (msg.id.map MsgId.server) (MsgContent.str msg.content) []], dm.2)
    else
      ([OutMsg.ai (msg.id.map MsgId.server) (MsgContent.str msg.content) []], c)
  else
    ([], c)

/-- The whole flatMap of `switchSelectedThread` over the raw message list,
threading the fresh-id counter left to right. -/
def reconstructMsgs (tv : ThreadValues) : List RawMsg → Nat → List OutMsg × Nat
  | [], c => ([], c)
  | msg :: rest, c =>
    let e := emitOne tv msg rest c
    let t := reconstructMsgs tv rest e.2
    (e.1 ++ t.1, t.2)

/-- The Timeline Reconstructor: `actualMessages` computed by
`switchSelectedThread` from a stored thread snapshot. -/
def reconstruct (tv : ThreadValues) (c : Nat) : List OutMsg × Nat :=
  reconstructMsgs tv tv.messages c

/-- Externally visible actions performed by `switchSelectedThread`, in
order: the `setThreadId` query-state write and `setMessages`. -/
inductive UIAction where
  | setQueryThreadId (id : String)
  | setMsgs (msgs : List OutMsg)
deriving DecidableEq, Repr

/-- The ordered action trace of `switchSelectedThread`: update the thread
id query state first, then either clear the messages (no stored values) or
replace them with the reconstruction. -/
def switchSelectedThread (th : Thread) (c : Nat) : List UIAction × Nat :=
  match th.values with
  | none => ([UIAction.setQueryThreadId th.thread_id, UIAction.setMsgs []], c)
  | some tv =>
    let r := reconstruct tv c
    ([UIAction.setQueryThreadId th.thread_id, UIAction.setMsgs r.1], r.2)

/-- The UI state touched by `switchSelectedThread`: the `threadId` query
state and the `messages` state. -/
structure UIState where
  threadId : Option String
  messages : List OutMsg
deriving DecidableEq, Repr

/-- Applies one UI action to the state. -/
def applyAction (st : UIState) : UIAction → UIState
  | UIAction.setQueryThreadId i => { st with threadId := some i }
  | UIAction.setMsgs ms => { st with messages := ms }

/-- Runs `switchSelectedThread` against a state: folds its action trace. -/
def runSwitch (st : UIState) (th : Thread) (c : Nat) : UIState × Nat :=
  let a := switchSelectedThread th c
  (a.1.foldl applyAction st, a.2)

/-- The component state used by `streamMessage`. -/
structure GraphState where
  runId : String
  isStreaming : Bool
  messages : List OutMsg
deriving DecidableEq, Repr

/-- The `GraphInput` parameter of `streamMessage`: an optional raw message
payload. -/
structure GraphInput where
  messages : Option (List RawMsg)
deriving DecidableEq, Repr

/-- A toast notification `\x7b title, description \x7d`. -/
structure Toast where
  title : String
  description : String
deriving DecidableEq, Repr

/-- The notification fired when no user id is available (IdentityMissing). -/
def userIdNotFoundToast : Toast :=
  { title := "Error", description := "User ID not found" }

/-- The notification fired when the backend call fails (BackendUnavailable). -/
def backendFailureToast : Toast :=
  { title := "Error", description := "Failed to get response from backend." }

/-- A request sent to the `/chat` endpoint by `sendChat`. -/
structure ChatRequest where
  messages : List RawMsg
  model : String
deriving DecidableEq, Repr

/-- Outcome of the awaited `sendChat` call: a parsed JSON body, or a
rejection (network failure, or the `throw` on a non-ok response). -/
inductive ChatResult where
  | success (r : ChatResponse)
  | failure
deriving DecidableEq, Repr

/-- The content chosen by `response.answer || response`: the `answer` field
when present and truthy (non-empty), otherwise the entire body. -/
def responseContent (r : ChatResponse) : MsgContent :=
  match r.answer with
  | some a => if a = "" then MsgContent.jsonBody r else MsgContent.str a
  | none => MsgContent.jsonBody r

/-- JavaScript falsiness of an optional string (`!userId`): absent or
empty. -/
def isFalsyStr : Option String → Bool
  | none => true
  | some s => decide (s = "")

/-- Observable outcome of one `streamMessage` call: resulting state, the
toasts fired, the chat requests sent, and the sequence of writes to the
`isStreaming` flag. -/
structure StreamOutcome where
  state : GraphState
  toasts : List Toast
  sent : List ChatRequest
  streamingWrites : List Bool
deriving DecidableEq, Repr

/-- `streamMessage` of the GraphProvider, with the awaited `sendChat`
outcome supplied by `result` and `uuidv4()` modelled by the counter `c`.
The `currentThreadId` parameter is unused by the source as well. -/
def streamMessage (userId : Option String) (currentThreadId : String)
    (params : GraphInput) (selectedModel : String) (st : GraphState)
    (result : ChatResult) (c : Nat) : StreamOutcome × Nat :=
  if isFalsyStr userId then
    ({ state := st, toasts := [userIdNotFoundToast], sent := [], streamingWrites := [] }, c)
  else
    let st1 : GraphState := { st with runId := "", isStreaming := true }
    let req : ChatRequest := { messages := params.messages.getD [], model := selectedModel }
    match result with
    | ChatResult.success r =>
        let newMsg := OutMsg.ai (some (MsgId.client c)) (responseContent r) []
        ({ state := { st1 with messages := st1.messages ++ [newMsg], isStreaming := false },
           toasts := [], sent := [req], streamingWrites := [true, false] }, c + 1)
    | ChatResult.failure =>
        ({ state := { st1 with isStreaming := false },
           toasts := [backendFailureToast], sent := [req],
           streamingWrites := [true, false] }, c)

/-- A timeline entry is a marker when it is an AI message with a non-empty
`tool_calls` list. -/
def isMarker : OutMsg → Bool
  | OutMsg.ai _ _ tcs => !tcs.isEmpty
  | _ => false

/-- A progress marker: the synthetic completed-progress affordance. -/
def isProgressMarker : OutMsg → Bool
  | OutMsg.ai _ _ [ToolCall.progress _] => true
  | _ => false

/-- An answer-header marker. -/
def isAnswerHeader : OutMsg → Bool
  | OutMsg.ai _ _ [ToolCall.answer_header] => true
  | _ => false

/-- Recognizes a Human timeline entry. -/
def isHumanMsg : OutMsg → Bool
  | OutMsg.human _ _ => true
  | _ => false

/-- The progress marker inserted after a human entry, with client id `n`. -/
def progressMsg (n : Nat) : OutMsg :=
  OutMsg.ai (some (MsgId.client n)) (MsgContent.str "") [ToolCall.progress 4]

/-- The id carried by a timeline entry. -/
def idOf : OutMsg → Option MsgId
  | OutMsg.human i _ => i
  | OutMsg.ai i _ _ => i

/-- The client-generated id carried by a timeline entry, if any. -/
def clientIdOf (m : OutMsg) : Option Nat :=
  match idOf m with
  | some (MsgId.client n) => some n
  | _ => none

/-- All client-generated ids of a timeline, in order. -/
def clientIds (out : List OutMsg) : List Nat :=
  out.filterMap clientIdOf

/-- Drops a client-generated id, keeping server ids. -/
def scrubClientId : Option MsgId → Option MsgId
  | some (MsgId.client _) => none
  | x => x

/-- Erases freshly generated synthetic ids from a timeline entry. -/
def eraseClientIds : OutMsg → OutMsg
  | OutMsg.human i cnt => OutMsg.human (scrubClientId i) cnt
  | OutMsg.ai i cnt tcs => OutMsg.ai (scrubClientId i) cnt tcs

/-- Counts the raw entries the code treats as terminal assistant entries:
type `ai`, and either last in the list or immediately followed by a
`human` entry. -/
def countTerminalAi : List RawMsg → Nat
  | [] => 0
  | m :: rest =>
    (if decide (m.type = "ai") && isLastAiMessage rest then 1 else 0) + countTerminalAi rest

/-- Whether `m` ends a maximal contiguous run of `ai` entries, given the
suffix `rest` after it. -/
def endsAiRun (m : RawMsg) (rest : List RawMsg) : Bool :=
  decide (m.type = "ai") &&
    (match rest.head? with
     | some nxt => decide (nxt.type ≠ "ai")
     | none => true)

/-- Number of maximal contiguous assistant-only runs in a raw list (the
quantity named by the terminal-marker invariant of the spec). -/
def aiRuns : List RawMsg → Nat
  | [] => 0
  | m :: rest => (if endsAiRun m rest then 1 else 0) + aiRuns rest

/-- The emission the spec prescribes for a terminal assistant entry,
written from the spec's words for comparison with `emitOne` (ids of the
synthetic markers erased, since the spec's order claim is id-agnostic):
a router marker iff the snapshot's router is present, then a
selected-documents marker iff the snapshot's documents form a non-empty
list, then an answer-header marker, then the assistant entry itself. -/
def terminalEmissionSpec (tv : ThreadValues) (msg : RawMsg) : List OutMsg :=
  (match tv.router with
   | some r => [OutMsg.ai none (MsgContent.str "") [ToolCall.router_logic r]]
   | none => []) ++
  (match tv.documents with
   | some docs =>
       if docs ≠ [] then
         [OutMsg.ai none (MsgContent.str "") [ToolCall.selected_documents docs]]
       else []
   | none => []) ++
  [OutMsg.ai none (MsgContent.str "") [ToolCall.answer_header],
   OutMsg.ai (msg.id.map MsgId.server) (MsgContent.str msg.content) []]

/-- The ordering invariant: every human entry of a timeline is immediately
followed by a progress marker, and that marker is the only progress marker
among the markers preceding the next non-marker entry. -/
def humanProgressAt (out : List OutMsg) : Prop :=
  ∀ (i : Nat) (m : OutMsg), out[i]? = some m → isHumanMsg m = true →
    (∃ n, out[i + 1]? = some (progressMsg n)) ∧
    (((out.drop (i + 1)).takeWhile isMarker).countP isProgressMarker) = 1

/-- The snapshot of the spec's reconstruction scenario. -/
def scenarioTV : ThreadValues :=
  { messages := [{ type := "human", id := none, content := "Q" },
                 { type := "ai", id := none, content := "A" }],
    router := some { decision := "docs" },
    documents := some [{ metadata := { source := "x" } }] }

/-! ### Case lemmas for the flatMap callback and the walk -/

theorem emitOne_human_eq (tv : ThreadValues) (msg : RawMsg) (rest : List RawMsg) (c : Nat)
    (h : msg.type = "human") :
    emitOne tv msg rest c =
      ([OutMsg.human (msg.id.map MsgId.server) (MsgContent.str msg.content),
        OutMsg.ai (some (MsgId.client c)) (MsgContent.str "") [ToolCall.progress 4]], c + 1) := by
  simp [emitOne, h]

theorem emitOne_ai_terminal_eq (tv : ThreadValues) (msg : RawMsg) (rest : List RawMsg) (c : Nat)
    (h : msg.type = "ai") (ht : isLastAiMessage rest = true) :
    emitOne tv msg rest c =
      ((routerMsgs tv c).1 ++ (docsMsgs tv (routerMsgs tv c).2).1 ++
        [answerHeaderToolMsg,
         OutMsg.ai (msg.id.map MsgId.server) (MsgContent.str msg.content) []],
       (docsMsgs tv (routerMsgs tv c).2).2) := by
  simp [emitOne, h, ht]

theorem emitOne_ai_nonterminal_eq (tv : ThreadValues) (msg : RawMsg) (rest : List RawMsg)
    (c : Nat) (h : msg.type = "ai") (ht : isLastAiMessage rest = false) :
    emitOne tv msg rest c =
      ([OutMsg.ai (msg.id.map MsgId.server) (MsgContent.str msg.content) []], c) := by
  simp [emitOne, h, ht]

theorem emitOne_other_eq (tv : ThreadValues) (msg : RawMsg) (rest : List RawMsg) (c : Nat)
    (hh : msg.type ≠ "human") (ha : msg.type ≠ "ai") :
    emitOne tv msg rest c = ([], c) := by
  simp [emitOne, hh, ha]

theorem reconstructMsgs_nil (tv : ThreadValues) (c : Nat) :
    reconstructMsgs tv [] c = ([], c) := rfl

theorem reconstructMsgs_cons (tv : ThreadValues) (msg : RawMsg) (rest : List RawMsg) (c : Nat) :
    reconstructMsgs tv (msg :: rest) c =
      ((emitOne tv msg rest c).1 ++ (reconstructMsgs tv rest (emitOne tv msg rest c).2).1,
       (reconstructMsgs tv rest (emitOne tv msg rest c).2).2) := rfl

/-! ### Claim C1 -/

/-- C1: a terminal assistant entry is reconstructed, in fixed order, as a
router marker carrying the snapshot's router exactly when that router is
present, then a selected-documents marker carrying the snapshot's
documents exactly when they form a non-empty list, then always an
answer-header marker, then the assistant entry with its original content;
and the spec's scenario snapshot reconstructs to Human "Q", progress
marker, router marker, selected-documents marker, answer-header marker,
Assistant "A". -/
theorem c1_terminal_marker_order :
    (∀ (tv : ThreadValues) (msg : RawMsg) (rest : List RawMsg) (c : Nat),
        msg.type = "ai" → isLastAiMessage rest = true →
        ((emitOne tv msg rest c).1).map eraseClientIds = terminalEmissionSpec tv msg)
    ∧ (reconstruct scenarioTV 0).1 =
        [OutMsg.human none (MsgContent.str "Q"),
         OutMsg.ai (some (MsgId.client 0)) (MsgContent.str "") [ToolCall.progress 4],
         OutMsg.ai (some (MsgId.client 1)) (MsgContent.str "")
           [ToolCall.router_logic { decision := "docs" }],
         OutMsg.ai (some (MsgId.client 2)) (MsgContent.str "")
           [ToolCall.selected_documents [{ metadata := { source := "x" } }]],
         OutMsg.ai none (MsgContent.str "") [ToolCall.answer_header],
         OutMsg.ai none (MsgContent.str "A") []] := by
  constructor
  · intro tv msg rest c h ht
    rw [emitOne_ai_terminal_eq tv msg rest c h ht]
    rcases tv with ⟨ms, r, d⟩
    cases hid : msg.id <;> cases r <;> rcases d with _ | (_ | ⟨d0, ds⟩) <;>
      simp [routerMsgs, docsMsgs, terminalEmissionSpec, eraseClientIds, scrubClientId,
        answerHeaderToolMsg, hid]
  · rfl

/-- Witness for C1 at a concrete terminal assistant entry. -/
theorem c1_terminal_marker_order_witness :
    ((emitOne scenarioTV { type := "ai", id := none, content := "A" } [] 7).1).map eraseClientIds
      = terminalEmissionSpec scenarioTV { type := "ai", id := none, content := "A" } :=
  c1_terminal_marker_order.1 scenarioTV { type := "ai", id := none, content := "A" } [] 7
    rfl rfl

/-! ### Claim C8 -/

/-- C8: a raw entry whose type is neither human nor ai contributes no
entry to the reconstruction, and a raw list with no recognized types
reconstructs to the empty timeline. -/
theorem c8_unrecognized_filtered :
    (∀ (tv : ThreadValues) (msg : RawMsg) (rest : List RawMsg) (c : Nat),
        msg.type ≠ "human" → msg.type ≠ "ai" → emitOne tv msg rest c = ([], c))
    ∧ (∀ (tv : ThreadValues) (l : List RawMsg) (c : Nat),
        (∀ m ∈ l, m.type ≠ "human" ∧ m.type ≠ "ai") → reconstructMsgs tv l c = ([], c)) := by
  refine ⟨emitOne_other_eq, ?_⟩
  intro tv l
  induction l with
  | nil => intro c _; rfl
  | cons m rest ih =>
    intro c hl
    have hm := hl m (List.mem_cons_self m rest)
    have ht := ih c fun x hx => hl x (List.mem_cons_of_mem m hx)
    rw [reconstructMsgs_cons, emitOne_other_eq tv m rest c hm.1 hm.2]
    simp [ht]

/-- Witness for C8: a lone system entry reconstructs to nothing. -/
theorem c8_unrecognized_filtered_witness :
    reconstructMsgs scenarioTV [{ type := "system", id := none, content := "s" }] 0 = ([], 0) :=
  c8_unrecognized_filtered.2 scenarioTV [{ type := "system", id := none, content := "s" }] 0
    (by decide)

/-! ### Claim C9 -/

/-- C9: `switchSelectedThread` updates the thread-id query state as its
first action, unconditionally; with no stored values it empties the
timeline; otherwise it replaces the timeline wholesale with the
reconstruction, independent of the prior state. -/
theorem c9_switch_replaces_timeline :
    ∀ (st : UIState) (th : Thread) (c : Nat),
      (switchSelectedThread th c).1.head? = some (UIAction.setQueryThreadId th.thread_id)
      ∧ (runSwitch st th c).1.threadId = some th.thread_id
      ∧ (th.values = none → (runSwitch st th c).1.messages = [])
      ∧ (∀ tv, th.values = some tv → (runSwitch st th c).1.messages = (reconstruct tv c).1) := by
  intro st th c
  rcases th with ⟨tid, _ | tv⟩
  · refine ⟨rfl, rfl, fun _ => rfl, ?_⟩
    intro tv h
    exact Option.noConfusion h
  · refine ⟨rfl, rfl, ?_, ?_⟩
    · intro h
      exact Option.noConfusion h
    · intro tv' h
      cases h
      rfl

/-- Witness for C9 on the scenario snapshot. -/
theorem c9_switch_replaces_timeline_witness :
    (runSwitch { threadId := none, messages := [] }
        { thread_id := "t1", values := some scenarioTV } 0).1.messages
      = (reconstruct scenarioTV 0).1 :=
  (c9_switch_replaces_timeline { threadId := none, messages := [] }
    { thread_id := "t1", values := some scenarioTV } 0).2.2.2 scenarioTV rfl

/-! ### Claim C4 -/

/-- C4: when the chat call rejects (network failure or non-ok response),
`streamMessage` leaves the timeline exactly as it was, ends with the
streaming flag cleared, fires exactly one backend-failure notification,
and generates no fresh id. -/
theorem c4_backend_failure_atomic (userId : Option String) (tid : String)
    (params : GraphInput) (model : String) (st : GraphState) (c : Nat)
    (hu : isFalsyStr userId = false) :
    (streamMessage userId tid params model st ChatResult.failure c).1.state.messages = st.messages
    ∧ (streamMessage userId tid params model st ChatResult.failure c).1.state.isStreaming = false
    ∧ (streamMessage userId tid params model st ChatResult.failure c).1.toasts
        = [backendFailureToast]
    ∧ (streamMessage userId tid params model st ChatResult.failure c).2 = c := by
  simp [streamMessage, hu]

/-- Witness for C4 at a concrete state and identity. -/
theorem c4_backend_failure_atomic_witness :
    (streamMessage (some "u") "t" { messages := none } "m"
        { runId := "", isStreaming := false, messages := [] } ChatResult.failure 0).1.state.messages
      = []
    ∧ (streamMessage (some "u") "t" { messages := none } "m"
        { runId := "", isStreaming := false, messages := [] }
          ChatResult.failure 0).1.state.isStreaming = false
    ∧ (streamMessage (some "u") "t" { messages := none } "m"
        { runId := "", isStreaming := false, messages := [] } ChatResult.failure 0).1.toasts
        = [backendFailureToast]
    ∧ (streamMessage (some "u") "t" { messages := none } "m"
        { runId := "", isStreaming := false, messages := [] } ChatResult.failure 0).2 = 0 :=
  c4_backend_failure_atomic (some "u") "t" { messages := none } "m"
    { runId := "", isStreaming := false, messages := [] } 0 (by decide)

/-! ### Claim C5 -/

/-- C5: invoked without a usable identity, `streamMessage` sends no chat
request, fires exactly one identity-missing notification, leaves the whole
state unchanged, never writes the streaming flag, and generates no fresh
id; in particular the flag stays false when it started false. -/
theorem c5_identity_missing (userId : Option String) (tid : String) (params : GraphInput)
    (model : String) (st : GraphState) (result : ChatResult) (c : Nat)
    (hu : isFalsyStr userId = true) (hs : st.isStreaming = false) :
    (streamMessage userId tid params model st result c).1.sent = []
    ∧ (streamMessage userId tid params model st result c).1.toasts = [userIdNotFoundToast]
    ∧ (streamMessage userId tid params model st result c).1.state = st
    ∧ (streamMessage userId tid params model st result c).1.streamingWrites = []
    ∧ (streamMessage userId tid params model st result c).1.state.isStreaming = false
    ∧ (streamMessage userId tid params model st result c).2 = c := by
  simp [streamMessage, hu, hs]

/-- Witness for C5 with an absent identity. -/
theorem c5_identity_missing_witness :
    (streamMessage none "t" { messages := none } "m"
        { runId := "", isStreaming := false, messages := [] } ChatResult.failure 3).1.sent = []
    ∧ (streamMessage none "t" { messages := none } "m"
        { runId := "", isStreaming := false, messages := [] } ChatResult.failure 3).1.toasts
        = [userIdNotFoundToast]
    ∧ (streamMessage none "t" { messages := none } "m"
        { runId := "", isStreaming := false, messages := [] } ChatResult.failure 3).1.state
        = { runId := "", isStreaming := false, messages := [] }
    ∧ (streamMessage none "t" { messages := none } "m"
        { runId := "", isStreaming := false, messages := [] }
          ChatResult.failure 3).1.streamingWrites = []
    ∧ (streamMessage none "t" { messages := none } "m"
        { runId := "", isStreaming := false, messages := [] }
          ChatResult.failure 3).1.state.isStreaming = false
    ∧ (streamMessage none "t" { messages := none } "m"
        { runId := "", isStreaming := false, messages := [] } ChatResult.failure 3).2 = 3 :=
  c5_identity_missing none "t" { messages := none } "m"
    { runId := "", isStreaming := false, messages := [] } ChatResult.failure 3 rfl rfl

/-! ### Claim C6 -/

/-- C6 counterexample: with a present but empty `answer` field, the
appended assistant message carries the entire response body (through the
`answer || response` fallback), not the answer field's value. -/
theorem c6_answer_field_counterexample :
    (streamMessage (some "u") "t" { messages := none } "m"
        { runId := "", isStreaming := false, messages := [] }
        (ChatResult.success { answer := some "", rest := "body" }) 0).1.state.messages
      = [OutMsg.ai (some (MsgId.client 0))
          (MsgContent.jsonBody { answer := some "", rest := "body" }) []]
    ∧ MsgContent.jsonBody { answer := some "", rest := "body" } ≠ MsgContent.str "" := by
  exact ⟨rfl, by decide⟩

/-- C6 amended: on success exactly one assistant message is appended, with
a fresh client-generated id, whose content is the `answer` field when that
field is present and non-empty, and the entire response body when the
field is absent or empty. -/
theorem c6_success_append (userId : Option String) (tid : String) (params : GraphInput)
    (model : String) (st : GraphState) (r : ChatResponse) (c : Nat)
    (hu : isFalsyStr userId = false)
    (hfresh : ∀ m ∈ st.messages, ∀ n, idOf m = some (MsgId.client n) → n < c) :
    (streamMessage userId tid params model st (ChatResult.success r) c).1.state.messages
      = st.messages ++
        [OutMsg.ai (some (MsgId.client c))
          (match r.answer with
           | some a => if a = "" then MsgContent.jsonBody r else MsgContent.str a
           | none => MsgContent.jsonBody r) []]
    ∧ some (MsgId.client c) ∉ st.messages.map idOf
    ∧ (streamMessage userId tid params model st (ChatResult.success r) c).1.state.isStreaming
        = false
    ∧ (streamMessage userId tid params model st (ChatResult.success r) c).1.toasts = []
    ∧ (streamMessage userId tid params model st (ChatResult.success r) c).2 = c + 1 := by
  refine ⟨?_, ?_, ?_, ?_, ?_⟩
  · simp [streamMessage, hu, responseContent]
  · intro hmem
    rcases List.mem_map.1 hmem with ⟨m, hm, hid⟩
    exact absurd (hfresh m hm c hid) (lt_irrefl c)
  · simp [streamMessage, hu]
  · simp [streamMessage, hu]
  · simp [streamMessage, hu]

/-- Witness for the amended C6 on an empty timeline and answer "hello". -/
theorem c6_success_append_witness :
    (streamMessage (some "u") "t" { messages := none } "m"
        { runId := "", isStreaming := false, messages := [] }
        (ChatResult.success { answer := some "hello", rest := "b" }) 5).1.state.messages
      = [] ++ [OutMsg.ai (some (MsgId.client 5)) (MsgContent.str "hello") []]
    ∧ some (MsgId.client 5) ∉ ([] : List OutMsg).map idOf
    ∧ (streamMessage (some "u") "t" { messages := none } "m"
        { runId := "", isStreaming := false, messages := [] }
        (ChatResult.success { answer := some "hello", rest := "b" }) 5).1.state.isStreaming
        = false
    ∧ (streamMessage (some "u") "t" { messages := none } "m"
        { runId := "", isStreaming := false, messages := [] }
        (ChatResult.success { answer := some "hello", rest := "b" }) 5).1.toasts = []
    ∧ (streamMessage (some "u") "t" { messages := none } "m"
        { runId := "", isStreaming := false, messages := [] }
        (ChatResult.success { answer := some "hello", rest := "b" }) 5).2 = 5 + 1 :=
  c6_success_append (some "u") "t" { messages := none } "m"
    { runId := "", isStreaming := false, messages := [] }
    { answer := some "hello", rest := "b" } 5 (by decide)
    (fun m hm => absurd hm (List.not_mem_nil m))

/-! ### Claim C3 helpers -/

theorem countP_answerHeader_emitOne (tv : ThreadValues) (msg : RawMsg) (rest : List RawMsg)
    (c : Nat) :
    ((emitOne tv msg rest c).1).countP isAnswerHeader
      = if decide (msg.type = "ai") && isLastAiMessage rest then 1 else 0 := by
  by_cases hh : msg.type = "human"
  · rw [emitOne_human_eq tv msg rest c hh]
    simp [isAnswerHeader, hh]
  · by_cases ha : msg.type = "ai"
    · cases hlast : isLastAiMessage rest
      · rw [emitOne_ai_nonterminal_eq tv msg rest c ha hlast]
        simp [isAnswerHeader, ha, hlast]
      · rw [emitOne_ai_terminal_eq tv msg rest c ha hlast]
        rcases tv with ⟨ms, r, d⟩
        cases r <;> rcases d with _ | (_ | ⟨d0, ds⟩) <;>
          simp [routerMsgs, docsMsgs, answerHeaderToolMsg, isAnswerHeader, ha, hlast]
    · rw [emitOne_other_eq tv msg rest c hh ha]
      simp [ha]

theorem countP_answerHeader_reconstructMsgs (tv : ThreadValues) :
    ∀ (l : List RawMsg) (c : Nat),
      ((reconstructMsgs tv l c).1).countP isAnswerHeader = countTerminalAi l := by
  intro l
  induction l with
  | nil => intro c; rfl
  | cons m rest ih =>
    intro c
    rw [reconstructMsgs_cons]
    simp only [List.countP_append, countP_answerHeader_emitOne, countTerminalAi, ih]

theorem countTerminalAi_eq_aiRuns :
    ∀ l : List RawMsg, (∀ m ∈ l, m.type = "human" ∨ m.type = "ai") →
      countTerminalAi l = aiRuns l := by
  intro l
  induction l with
  | nil => intro _; rfl
  | cons m rest ih =>
    intro hl
    have hrest : ∀ x ∈ rest, x.type = "human" ∨ x.type = "ai" :=
      fun x hx => hl x (List.mem_cons_of_mem m hx)
    have heq : (decide (m.type = "ai") && isLastAiMessage rest) = endsAiRun m rest := by
      cases rest with
      | nil => simp [isLastAiMessage, endsAiRun]
      | cons nxt rest2 =>
        rcases hrest nxt (List.mem_cons_self nxt rest2) with h | h <;>
          simp [isLastAiMessage, endsAiRun, h]
    simp [countTerminalAi, aiRuns, heq, ih hrest]

/-! ### Claim C3 -/

/-- C3 counterexample: on the raw list [ai, system] the reconstruction
emits no answer-header marker at all (the ai entry's successor is a
system entry, so the code does not treat it as terminal), while the list
has one maximal contiguous assistant-only run. -/
theorem c3_run_count_counterexample :
    ¬ (((reconstruct { messages := [{ type := "ai", id := none, content := "x" },
                                    { type := "system", id := none, content := "y" }],
                       router := none, documents := none } 0).1).countP isAnswerHeader
        = aiRuns [{ type := "ai", id := none, content := "x" },
                  { type := "system", id := none, content := "y" }]) := by
  decide

/-- C3 amended: an ai entry is terminal exactly when it is the last raw
entry or its immediate successor is a human entry, so the number of
answer-header markers equals the number of such terminal ai entries; when
every raw entry is of type human or ai this count coincides with the
number of maximal contiguous assistant-only runs. -/
theorem c3_answer_header_count :
    (∀ (tv : ThreadValues) (c : Nat),
        ((reconstruct tv c).1).countP isAnswerHeader = countTerminalAi tv.messages)
    ∧ (∀ l : List RawMsg, (∀ m ∈ l, m.type = "human" ∨ m.type = "ai") →
        countTerminalAi l = aiRuns l) :=
  ⟨fun tv c => countP_answerHeader_reconstructMsgs tv tv.messages c, countTerminalAi_eq_aiRuns⟩

/-- Witness for the amended C3 on a human/ai-only raw list. -/
theorem c3_answer_header_count_witness :
    countTerminalAi [{ type := "human", id := none, content := "q" },
                     { type := "ai", id := none, content := "a" }]
      = aiRuns [{ type := "human", id := none, content := "q" },
                { type := "ai", id := none, content := "a" }] :=
  c3_answer_header_count.2
    [{ type := "human", id := none, content := "q" },
     { type := "ai", id := none, content := "a" }] (by decide)

/-! ### Claim C7 helpers -/

theorem eraseClientIds_emitOne (tv : ThreadValues) (msg : RawMsg) (rest : List RawMsg)
    (c₁ c₂ : Nat) :
    ((emitOne tv msg rest c₁).1).map eraseClientIds
      = ((emitOne tv msg rest c₂).1).map eraseClientIds := by
  by_cases hh : msg.type = "human"
  · rw [emitOne_human_eq tv msg rest c₁ hh, emitOne_human_eq tv msg rest c₂ hh]
    simp [eraseClientIds, scrubClientId]
  · by_cases ha : msg.type = "ai"
    · cases hlast : isLastAiMessage rest
      · rw [emitOne_ai_nonterminal_eq tv msg rest c₁ ha hlast,
            emitOne_ai_nonterminal_eq tv msg rest c₂ ha hlast]
      · rw [emitOne_ai_terminal_eq tv msg rest c₁ ha hlast,
            emitOne_ai_terminal_eq tv msg rest c₂ ha hlast]
        rcases tv with ⟨ms, r, d⟩
        cases r <;> rcases d with _ | (_ | ⟨d0, ds⟩) <;>
          simp [routerMsgs, docsMsgs, answerHeaderToolMsg, eraseClientIds, scrubClientId]
    · rw [emitOne_other_eq tv msg rest c₁ hh ha, emitOne_other_eq tv msg rest c₂ hh ha]

theorem eraseClientIds_reconstructMsgs (tv : ThreadValues) :
    ∀ (l : List RawMsg) (c₁ c₂ : Nat),
      ((reconstructMsgs tv l c₁).1).map eraseClientIds
        = ((reconstructMsgs tv l c₂).1).map eraseClientIds := by
  intro l
  induction l with
  | nil => intro c₁ c₂; rfl
  | cons m rest ih =>
    intro c₁ c₂
    rw [reconstructMsgs_cons tv m rest c₁, reconstructMsgs_cons tv m rest c₂]
    simp only [List.map_append]
    rw [eraseClientIds_emitOne tv m rest c₁ c₂,
        ih (emitOne tv m rest c₁).2 (emitOne tv m rest c₂).2]

/-! ### Claim C7 -/

/-- C7: the Reconstructor is a pure function of the snapshot: runs started
at any two fresh-id generator states produce element-wise equal timelines
once the freshly generated synthetic ids are erased (and the snapshot is
never modified, the embedding being functional). -/
theorem c7_reconstruct_deterministic (tv : ThreadValues) (c₁ c₂ : Nat) :
    ((reconstruct tv c₁).1).map eraseClientIds = ((reconstruct tv c₂).1).map eraseClientIds :=
  eraseClientIds_reconstructMsgs tv tv.messages c₁ c₂

/-! ### Claim C2 helpers -/

theorem progressFree_takeWhile_reconstructMsgs (tv : ThreadValues) :
    ∀ (l : List RawMsg) (c : Nat),
      ((((reconstructMsgs tv l c).1).takeWhile isMarker).countP isProgressMarker) = 0 := by
  intro l
  induction l with
  | nil => intro c; rfl
  | cons m rest ih =>
    intro c
    rw [reconstructMsgs_cons]
    by_cases hh : m.type = "human"
    · rw [emitOne_human_eq tv m rest c hh]
      simp [List.takeWhile_cons, isMarker]
    · by_cases ha : m.type = "ai"
      · cases hlast : isLastAiMessage rest
        · rw [emitOne_ai_nonterminal_eq tv m rest c ha hlast]
          simp [List.takeWhile_cons, isMarker]
        · rw [emitOne_ai_terminal_eq tv m rest c ha hlast]
          rcases tv with ⟨ms, r, d⟩
          cases r <;> rcases d with _ | (_ | ⟨d0, ds⟩) <;>
            simp [routerMsgs, docsMsgs, answerHeaderToolMsg, List.takeWhile_cons,
              isMarker, isProgressMarker, List.countP_cons]
      · rw [emitOne_other_eq tv m rest c hh ha]
        simpa using ih c

theorem humanProgressAt_append (block tail : List OutMsg)
    (hb : ∀ m ∈ block, isHumanMsg m = false) (ht : humanProgressAt tail) :
    humanProgressAt (block ++ tail) := by
  intro i m hget hh
  by_cases hlt : i < block.length
  · rw [List.getElem?_append_left hlt] at hget
    have hm : m ∈ block := by
      rcases List.getElem?_eq_some_iff.1 hget with ⟨h', he⟩
      exact he ▸ List.getElem_mem h'
    rw [hb m hm] at hh
    simp at hh
  · push_neg at hlt
    rw [List.getElem?_append_right hlt] at hget
    have h2 : block.length ≤ i + 1 := Nat.le_succ_of_le hlt
    have h4 : (i + 1) - block.length = (i - block.length) + 1 := by omega
    have h5 : (block ++ tail).drop (i + 1) = tail.drop ((i - block.length) + 1) := by
      have h6 : i + 1 = block.length + ((i - block.length) + 1) := by omega
      rw [h6, List.drop_append]
    obtain ⟨⟨n, hn⟩, hcount⟩ := ht (i - block.length) m hget hh
    refine ⟨⟨n, ?_⟩, ?_⟩
    · rw [List.getElem?_append_right h2, h4]
      exact hn
    · rw [h5]
      exact hcount

theorem humanProgressAt_cons₂ (a : OutMsg) (k : Nat) (tail : List OutMsg)
    (ht : humanProgressAt tail)
    (h0 : ((tail.takeWhile isMarker).countP isProgressMarker) = 0) :
    humanProgressAt (a :: progressMsg k :: tail) := by
  intro i m hget hh
  match i with
  | 0 =>
    refine ⟨⟨k, by simp⟩, ?_⟩
    show (((progressMsg k :: tail).takeWhile isMarker).countP isProgressMarker) = 1
    simp [List.takeWhile_cons, isMarker, isProgressMarker, progressMsg, List.countP_cons, h0]
  | 1 =>
    have hm : m = progressMsg k := by
      simpa using hget.symm
    rw [hm] at hh
    simp [isHumanMsg, progressMsg] at hh
  | (j + 2) =>
    have hget' : tail[j]? = some m := by simpa using hget
    obtain ⟨⟨n, hn⟩, hcount⟩ := ht j m hget' hh
    refine ⟨⟨n, by simpa using hn⟩, by simpa using hcount⟩

theorem routerMsgs_no_human (tv : ThreadValues) (c : Nat) :
    ∀ m ∈ (routerMsgs tv c).1, isHumanMsg m = false := by
  cases hr : tv.router <;> simp [routerMsgs, hr, isHumanMsg]

theorem docsMsgs_no_human (tv : ThreadValues) (c : Nat) :
    ∀ m ∈ (docsMsgs tv c).1, isHumanMsg m = false := by
  cases hd : tv.documents with
  | none => simp [docsMsgs, hd]
  | some docs =>
    simp only [docsMsgs, hd]
    split <;> simp [isHumanMsg]

theorem emitOne_no_human (tv : ThreadValues) (msg : RawMsg) (rest : List RawMsg) (c : Nat)
    (hh : msg.type ≠ "human") :
    ∀ m ∈ (emitOne tv msg rest c).1, isHumanMsg m = false := by
  by_cases ha : msg.type = "ai"
  · cases hlast : isLastAiMessage rest
    · rw [emitOne_ai_nonterminal_eq tv msg rest c ha hlast]
      intro m hm
      rw [List.mem_singleton.1 hm]
      rfl
    · rw [emitOne_ai_terminal_eq tv msg rest c ha hlast]
      intro m hm
      rcases List.mem_append.1 hm with hm' | hm'
      · rcases List.mem_append.1 hm' with h | h
        · exact routerMsgs_no_human tv c m h
        · exact docsMsgs_no_human tv (routerMsgs tv c).2 m h
      · rcases hm' with _ | ⟨_, hm''⟩
        · rfl
        · rw [List.mem_singleton.1 hm'']
          rfl
  · rw [emitOne_other_eq tv msg rest c hh ha]
    intro m hm
    simp at hm

theorem humanProgressAt_reconstructMsgs (tv : ThreadValues) :
    ∀ (l : List RawMsg) (c : Nat), humanProgressAt (reconstructMsgs tv l c).1 := by
  intro l
  induction l with
  | nil =>
    intro c i m hget hh
    simp [reconstructMsgs] at hget
  | cons msg rest ih =>
    intro c
    rw [reconstructMsgs_cons]
    by_cases hh : msg.type = "human"
    · rw [emitOne_human_eq tv msg rest c hh]
      exact humanProgressAt_cons₂ _ c _ (ih _)
        (progressFree_takeWhile_reconstructMsgs tv rest _)
    · exact humanProgressAt_append _ _ (emitOne_no_human tv msg rest c hh) (ih _)

/-! ### Claim C2 -/

/-- C2: in any reconstruction, every Human entry is immediately followed
by a synthetic progress marker with step payload 4 (the step one past the
last pipeline node, i.e. processing complete), and that marker is the only
progress marker occurring before the next non-marker entry. -/
theorem c2_human_followed_by_progress (tv : ThreadValues) (c i : Nat) (m : OutMsg)
    (hget : ((reconstruct tv c).1)[i]? = some m) (hm : isHumanMsg m = true) :
    (∃ n, ((reconstruct tv c).1)[i + 1]? = some (progressMsg n))
    ∧ ((((reconstruct tv c).1.drop (i + 1)).takeWhile isMarker).countP isProgressMarker) = 1
    ∧ nodeToStep "respond" + 1 = 4 := by
  obtain ⟨h1, h2⟩ := humanProgressAt_reconstructMsgs tv tv.messages c i m hget hm
  exact ⟨h1, h2, rfl⟩

/-- Witness for C2: the human entry of the scenario snapshot. -/
theorem c2_human_followed_by_progress_witness :
    (∃ n, ((reconstruct scenarioTV 0).1)[0 + 1]? = some (progressMsg n))
    ∧ ((((reconstruct scenarioTV 0).1.drop (0 + 1)).takeWhile isMarker).countP isProgressMarker)
        = 1
    ∧ nodeToStep "respond" + 1 = 4 :=
  c2_human_followed_by_progress scenarioTV 0 0 (OutMsg.human none (MsgContent.str "Q"))
    (by decide) (by decide)

/-! ### Claim C10 helpers -/

theorem clientIds_append (a b : List OutMsg) :
    clientIds (a ++ b) = clientIds a ++ clientIds b :=
  List.filterMap_append a b clientIdOf

theorem clientIds_routerMsgs (tv : ThreadValues) (c : Nat) :
    ∃ k, clientIds (routerMsgs tv c).1 = List.range' c k ∧ (routerMsgs tv c).2 = c + k := by
  cases hr : tv.router with
  | none => refine ⟨0, ?_, ?_⟩ <;> simp [clientIds, routerMsgs, hr]
  | some r => refine ⟨1, ?_, ?_⟩ <;> simp [clientIds, routerMsgs, hr, clientIdOf, idOf]

theorem clientIds_docsMsgs (tv : ThreadValues) (c : Nat) :
    ∃ k, clientIds (docsMsgs tv c).1 = List.range' c k ∧ (docsMsgs tv c).2 = c + k := by
  cases hd : tv.documents with
  | none => refine ⟨0, ?_, ?_⟩ <;> simp [clientIds, docsMsgs, hd]
  | some docs =>
    by_cases hl : docs.length ≠ 0
    · refine ⟨1, ?_, ?_⟩ <;> simp [clientIds, docsMsgs, hd, hl, clientIdOf, idOf]
    · refine ⟨0, ?_, ?_⟩ <;> simp [clientIds, docsMsgs, hd, hl]

theorem clientIds_emitOne (tv : ThreadValues) (msg : RawMsg) (rest : List RawMsg) (c : Nat) :
    ∃ k, clientIds (emitOne tv msg rest c).1 = List.range' c k
      ∧ (emitOne tv msg rest c).2 = c + k := by
  by_cases hh : msg.type = "human"
  · rw [emitOne_human_eq tv msg rest c hh]
    refine ⟨1, ?_, rfl⟩
    cases hid : msg.id <;> simp [clientIds, clientIdOf, idOf, hid]
  · by_cases ha : msg.type = "ai"
    · cases hlast : isLastAiMessage rest
      · rw [emitOne_ai_nonterminal_eq tv msg rest c ha hlast]
        refine ⟨0, ?_, rfl⟩
        cases hid : msg.id <;> simp [clientIds, clientIdOf, idOf, hid]
      · rw [emitOne_ai_terminal_eq tv msg rest c ha hlast]
        obtain ⟨k₁, h1, h2⟩ := clientIds_routerMsgs tv c
        obtain ⟨k₂, h3, h4⟩ := clientIds_docsMsgs tv (routerMsgs tv c).2
        refine ⟨k₂ + k₁, ?_, by omega⟩
        rw [clientIds_append, clientIds_append, h1, h2] at *
        rw [h3]
        have htl : clientIds [answerHeaderToolMsg,
            OutMsg.ai (msg.id.map MsgId.server) (MsgContent.str msg.content) []] = [] := by
          cases hid : msg.id <;>
            simp [clientIds, clientIdOf, idOf, answerHeaderToolMsg, hid]
        rw [htl, List.append_nil, List.range'_append_1]
    · rw [emitOne_other_eq tv msg rest c hh ha]
      exact ⟨0, by simp [clientIds], by simp⟩

theorem clientIds_reconstructMsgs (tv : ThreadValues) :
    ∀ (l : List RawMsg) (c : Nat),
      ∃ k, clientIds (reconstructMsgs tv l c).1 = List.range' c k
        ∧ (reconstructMsgs tv l c).2 = c + k := by
  intro l
  induction l with
  | nil => intro c; exact ⟨0, by simp [reconstructMsgs, clientIds], by simp [reconstructMsgs]⟩
  | cons m rest ih =>
    intro c
    obtain ⟨k₁, h1, h2⟩ := clientIds_emitOne tv m rest c
    obtain ⟨k₂, h3, h4⟩ := ih (emitOne tv m rest c).2
    refine ⟨k₁ + k₂, ?_, ?_⟩
    · rw [reconstructMsgs_cons, clientIds_append, h1, h3, h2, List.range'_append_1,
        Nat.add_comm k₂ k₁]
    · rw [reconstructMsgs_cons]
      omega

theorem marker_ids_routerMsgs (tv : ThreadValues) (c : Nat) :
    ∀ m ∈ (routerMsgs tv c).1,
      isAnswerHeader m = false ∧ ∃ n, idOf m = some (MsgId.client n) := by
  cases hr : tv.router with
  | none => simp [routerMsgs, hr]
  | some r =>
    intro m hm
    have hm' : m = OutMsg.ai (some (MsgId.client c)) (MsgContent.str "")
        [ToolCall.router_logic r] := by
      simpa [routerMsgs, hr] using hm
    rw [hm']
    exact ⟨rfl, c, rfl⟩

theorem marker_ids_docsMsgs (tv : ThreadValues) (c : Nat) :
    ∀ m ∈ (docsMsgs tv c).1,
      isAnswerHeader m = false ∧ ∃ n, idOf m = some (MsgId.client n) := by
  cases hd : tv.documents with
  | none => simp [docsMsgs, hd]
  | some docs =>
    by_cases hl : docs.length ≠ 0
    · intro m hm
      have hm' : m = OutMsg.ai (some (MsgId.client c)) (MsgContent.str "")
          [ToolCall.selected_documents docs] := by
        simpa [docsMsgs, hd, hl] using hm
      rw [hm']
      exact ⟨rfl, c, rfl⟩
    · simp [docsMsgs, hd, hl]

theorem marker_ids_emitOne (tv : ThreadValues) (msg : RawMsg) (rest : List RawMsg) (c : Nat) :
    ∀ m ∈ (emitOne tv msg rest c).1, isMarker m = true →
      (isAnswerHeader m = true → idOf m = none)
      ∧ (isAnswerHeader m = false → ∃ n, idOf m = some (MsgId.client n)) := by
  by_cases hh : msg.type = "human"
  · rw [emitOne_human_eq tv msg rest c hh]
    intro m hm hmk
    rcases List.mem_cons.1 hm with h | h
    · rw [h] at hmk
      simp [isMarker] at hmk
    · rw [List.mem_singleton.1 h]
      refine ⟨?_, fun _ => ⟨c, rfl⟩⟩
      intro hah
      simp [isAnswerHeader] at hah
  · by_cases ha : msg.type = "ai"
    · cases hlast : isLastAiMessage rest
      · rw [emitOne_ai_nonterminal_eq tv msg rest c ha hlast]
        intro m hm hmk
        rw [List.mem_singleton.1 hm] at hmk
        simp [isMarker] at hmk
      · rw [emitOne_ai_terminal_eq tv msg rest c ha hlast]
        intro m hm hmk
        rcases List.mem_append.1 hm with hm' | hm'
        · rcases List.mem_append.1 hm' with h | h
          · obtain ⟨hah, hn⟩ := marker_ids_routerMsgs tv c m h
            exact ⟨fun habs => absurd habs (by simp [hah]), fun _ => hn⟩
          · obtain ⟨hah, hn⟩ := marker_ids_docsMsgs tv (routerMsgs tv c).2 m h
            exact ⟨fun habs => absurd habs (by simp [hah]), fun _ => hn⟩
        · rcases List.mem_cons.1 hm' with h | h
          · rw [h]
            refine ⟨fun _ => rfl, ?_⟩
            intro hah
            simp [isAnswerHeader, answerHeaderToolMsg] at hah
          · rw [List.mem_singleton.1 h] at hmk
            simp [isMarker] at hmk
    · rw [emitOne_other_eq tv msg rest c hh ha]
      intro m hm
      simp at hm

theorem marker_ids_reconstructMsgs (tv : ThreadValues) :
    ∀ (l : List RawMsg) (c : Nat),
      ∀ m ∈ (reconstructMsgs tv l c).1, isMarker m = true →
        (isAnswerHeader m = true → idOf m = none)
        ∧ (isAnswerHeader m = false → ∃ n, idOf m = some (MsgId.client n)) := by
  intro l
  induction l with
  | nil =>
    intro c m hm
    simp [reconstructMsgs] at hm
  | cons msg rest ih =>
    intro c m hm
    rw [reconstructMsgs_cons] at hm
    rcases List.mem_append.1 hm with h | h
    · exact marker_ids_emitOne tv msg rest c m h
    · exact ih _ m h

/-! ### Claim C10 -/

/-- C10 counterexample: the answer-header marker of a reconstruction is a
synthetic marker message built without any id at all, so not every
synthetic marker carries a client-generated id. -/
theorem c10_marker_id_counterexample :
    (reconstruct { messages := [{ type := "ai", id := none, content := "A" }],
                   router := none, documents := none } 0).1[0]?
      = some answerHeaderToolMsg
    ∧ isMarker answerHeaderToolMsg = true
    ∧ idOf answerHeaderToolMsg = none := by
  decide

/-- C10 amended: every synthetic marker other than the answer-header
marker carries a client-generated id (the answer-header marker carries no
id), and the client-generated ids of a reconstruction are pairwise
distinct. -/
theorem c10_marker_ids (tv : ThreadValues) (c : Nat) :
    (∀ m ∈ (reconstruct tv c).1, isMarker m = true →
        (isAnswerHeader m = true → idOf m = none)
        ∧ (isAnswerHeader m = false → ∃ n, idOf m = some (MsgId.client n)))
    ∧ (clientIds (reconstruct tv c).1).Nodup := by
  refine ⟨fun m hm hmk => marker_ids_reconstructMsgs tv tv.messages c m hm hmk, ?_⟩
  obtain ⟨k, hk, _⟩ := clientIds_reconstructMsgs tv tv.messages c
  show (clientIds (reconstructMsgs tv tv.messages c).1).Nodup
  rw [hk]
  exact List.nodup_range' c k

/-- Witness for the amended C10: the progress marker of the scenario
reconstruction carries a client-generated id. -/
theorem c10_marker_ids_witness :
    (isAnswerHeader (progressMsg 0) = true → idOf (progressMsg 0) = none)
    ∧ (isAnswerHeader (progressMsg 0) = false →
        ∃ n, idOf (progressMsg 0) = some (MsgId.client n)) :=
  (c10_marker_ids scenarioTV 0).1 (progressMsg 0) (by decide) (by decide)

end ChatLangChain
